import Mathlib

/-!
Verification development for the x-collector-mcp repository.

This file gives a shallow embedding of the repository's core algorithms:
* `parseEngagement` (src/utils/selectors.ts, also redefined verbatim inside
  `TwitterService.extractTweets` in src/services/twitter.ts),
* the DOM extraction pipeline `TwitterService.extractTweets`
  (src/services/twitter.ts, 2025 version),
* the collection loop `TwitterService.collectTweetsNaturally`,
* the sheet writer `SheetsService.exportTweetsToSheets` (src/services/sheets.ts),
* `TwitterService.getUserProfile`.

JavaScript numbers produced by the engagement parser are modelled as
`Option Int`: `none` models the IEEE value `NaN` (which `parseFloat` can
return and which then propagates through `Math.floor`); every non-NaN value
the code can produce is an exact non-negative integer, so `some n` carries it
as an `Int`.  The rendered DOM is modelled as records holding, per CSS
selector that the source code actually uses, the result that
`querySelector`/`querySelectorAll` would return for it.
-/

/-! ## Character and string helpers (JS semantics) -/

/-- Digit-string to number, JS `parseInt` on a nonempty digit run. -/
def digitsToNat (l : List Char) : Nat :=
  l.foldl (fun a c => a * 10 + (c.toNat - 48)) 0

/-- First maximal run of decimal digits in a character list: JS
`text.match(/\d+/)`, `none` when the text has no digit. -/
def firstDigitRun : List Char → Option (List Char)
  | [] => none
  | c :: rest =>
    if c.isDigit then some ((c :: rest).takeWhile Char.isDigit)
    else firstDigitRun rest

/-- JS `text.match(/\d+/)` followed by `parseInt`, with `0` for no match. -/
def fallbackDigits (s : String) : Nat :=
  match firstDigitRun s.toList with
  | some ds => digitsToNat ds
  | none => 0

/-! ## `parseEngagement` (src/utils/selectors.ts lines 105-126)

```js
export function parseEngagement(text: string): number {
  if (!text || typeof text !== 'string') return 0;
  const cleanText = text.replace(/[^\d.,KMBkmb]/gi, '');
  const match = cleanText.match(/([\d,]+\.?\d*)\s*([KMBkmb]?)/i);
  if (!match) {
    const numMatch = text.match(/\d+/);
    return numMatch ? parseInt(numMatch[0]) : 0;
  }
  let num = parseFloat(match[1].replace(/,/g, ''));
  const suffix = match[2].toUpperCase();
  if (suffix === 'K') num *= 1000;
  else if (suffix === 'M') num *= 1000000;
  else if (suffix === 'B') num *= 1000000000;
  return Math.floor(num);
}
```
-/

/-- Characters kept by `text.replace(/[^\d.,KMBkmb]/gi, '')`. -/
def engKeepChar (c : Char) : Bool :=
  c.isDigit || c = '.' || c = ',' ||
  c = 'K' || c = 'M' || c = 'B' || c = 'k' || c = 'm' || c = 'b'

/-- The cleaned character list (`cleanText`). -/
def engClean (s : String) : List Char := s.toList.filter engKeepChar

/-- A character matched by the regex class `[\d,]`. -/
def isNumChar (c : Char) : Bool := c.isDigit || c = ','

/-- A character matched by `[KMBkmb]`. -/
def isSuffixChar (c : Char) : Bool :=
  c = 'K' || c = 'M' || c = 'B' || c = 'k' || c = 'm' || c = 'b'

/-- Decomposition of the leftmost match of `([\d,]+\.?\d*)\s*([KMBkmb]?)` in a
character list without whitespace: the digit/comma run of group 1, whether the
optional dot was consumed, the digit run after the dot, and the optional
suffix character of group 2.  `none` when the regex does not match anywhere
(i.e. the list contains no digit and no comma). -/
def engMatch (l : List Char) : Option (List Char × Bool × List Char × Option Char) :=
  let rest := l.dropWhile (fun c => !(isNumChar c))
  match rest with
  | [] => none
  | _ :: _ =>
    let g1a := rest.takeWhile isNumChar
    let r1 := rest.drop g1a.length
    match r1 with
    | '.' :: r2 =>
      let g1b := r2.takeWhile Char.isDigit
      let r3 := r2.drop g1b.length
      some (g1a, true, g1b, match r3 with
        | c :: _ => if isSuffixChar c then some c else none
        | [] => none)
    | c :: _ => some (g1a, false, [], if isSuffixChar c then some c else none)
    | [] => some (g1a, false, [], none)

/-- The multiplier chosen from `match[2].toUpperCase()`. -/
def suffixMult : Option Char → Nat
  | some c =>
    if c = 'K' || c = 'k' then 1000
    else if c = 'M' || c = 'm' then 1000000
    else if c = 'B' || c = 'b' then 1000000000
    else 1
  | none => 1

/-- `parseEngagement`.  `none` models the JS result `NaN`, which arises exactly
when `parseFloat` is applied to a string with no digits (group 1 consisted
only of commas, with no fractional digits after an optional dot).  All non-NaN
results are exact: `Math.floor((I + F/10^k) * mult)` for digit values `I`, `F`
is computed as exact natural division. -/
def parseEngagement (s : String) : Option Int :=
  if s = "" then some 0
  else
    match engMatch (engClean s) with
    | none => some (fallbackDigits s : Nat)
    | some (g1a, hasDot, g1b, suffix) =>
      let intDs := g1a.filter Char.isDigit
      if intDs = [] ∧ (hasDot = false ∨ g1b = []) then none
      else
        some (((digitsToNat intDs * 10 ^ g1b.length + digitsToNat g1b)
                * suffixMult suffix) / 10 ^ g1b.length : Nat)

/-- Whether the call took the `if (!match)` fallback branch (first-run-of-digits
extraction on the raw text): the text is nonempty and the structured regex
found no match in the cleaned text. -/
def parseEngagementUsedFallback (s : String) : Bool :=
  s ≠ "" && (engMatch (engClean s)).isNone

example : parseEngagement "1,234" = some 1234 := by decide
example : parseEngagement "12.3K" = some 12300 := by decide
example : parseEngagement "2M" = some 2000000 := by decide
example : parseEngagement "" = some 0 := by decide
example : parseEngagement "abc" = some 0 := by decide
example : parseEngagement "7 replies" = some 7 := by decide
example : parseEngagement "," = none := by decide
example : parseEngagementUsedFallback "7 replies" = false := by decide
example : parseEngagementUsedFallback "abc" = true := by decide
example : parseEngagement "12.3k" = some 12300 := by decide
example : parseEngagement "9.99" = some 9 := by decide

/-! ## DOM model

The extraction code reads the rendered page only through a fixed, finite set
of CSS selector queries.  An `Element` therefore records, for each selector
the source applies *inside* a candidate element, the observation the DOM
would answer: `q_*` fields hold the `textContent` of the first match of the
corresponding selector (`none` when the selector has no match), `a_*` fields
hold, for the first match of an author selector, its `href` attribute
(`some none` = element found but no `href`), and `e_*` fields hold the
`textContent` of the first match of the engagement span selectors. -/

/-- JS `String.prototype.trim`. -/
def jsTrim (s : String) : String :=
  String.mk (((s.toList.dropWhile Char.isWhitespace).reverse.dropWhile
    Char.isWhitespace).reverse)

/-- JS `haystack.includes(pat)` on character lists. -/
def containsSeq (pat : List Char) : List Char → Bool
  | [] => pat.isEmpty
  | c :: rest => pat.isPrefixOf (c :: rest) || containsSeq pat rest

/-- One candidate post element, as observed through the selectors used by
`TwitterService.extractTweets` (src/services/twitter.ts, 2025 version). -/
structure Element where
  /-- `el.textContent` (never null for an element node). -/
  textContent : String := ""
  /-- `[data-testid="tweetText"]` -/
  q_tweetText : Option String := none
  /-- `[lang] span` -/
  q_langSpan : Option String := none
  /-- `div[lang]` -/
  q_divLang : Option String := none
  /-- `span[lang]` -/
  q_spanLang : Option String := none
  /-- `[dir="auto"]` -/
  q_dirAuto : Option String := none
  /-- `time`: the `datetime` attribute and the `textContent` of the first match. -/
  q_time : Option (Option String × String) := none
  /-- `[data-testid="User-Name"] a[role="link"]` -/
  a_userName : Option (Option String) := none
  /-- `[data-testid="User-Names"] a[role="link"]` -/
  a_userNames : Option (Option String) := none
  /-- `a[href^="/"]` -/
  a_hrefLink : Option (Option String) := none
  /-- `[href^="/"][role="link"]` -/
  a_hrefRole : Option (Option String) := none
  /-- `[data-testid="like"] span` -/
  e_like : Option String := none
  /-- `[data-testid="favorite"] span` -/
  e_favorite : Option String := none
  /-- `[data-testid="retweet"] span` -/
  e_retweet : Option String := none
  /-- `[data-testid="unretweet"] span` -/
  e_unretweet : Option String := none
  /-- `[data-testid="reply"] span` -/
  e_reply : Option String := none
  /-- `[data-testid="socialContext"]` yields a match. -/
  hasSocialContext : Bool := false
  /-- `textContent` of the first match of `[data-testid="socialContext"] a`. -/
  socialContextA : Option String := none
  /-- `el.querySelector('input')` yields a match. -/
  hasInput : Bool := false
  /-- `el.querySelector('button')` yields a match. -/
  hasButton : Bool := false
deriving DecidableEq

/-- One rendered page, as observed through the document-level queries of
`TwitterService.extractTweets`: the `querySelectorAll` result for each of the
six candidate container selectors, and `querySelectorAll('*')`. -/
structure Document where
  /-- `[data-testid="tweet"]` -/
  selTweet : List Element := []
  /-- `article[data-testid="tweet"]` -/
  selArticleTweet : List Element := []
  /-- `[data-testid="cellInnerDiv"] article` -/
  selCellInner : List Element := []
  /-- `article[role="article"]` -/
  selRoleArticle : List Element := []
  /-- `div[data-testid="tweet"]` -/
  selDivTweet : List Element := []
  /-- `[data-testid="tweetText"]` -/
  selTweetText : List Element := []
  /-- `querySelectorAll('*')` -/
  allElements : List Element := []
deriving DecidableEq

/-- One extracted post (a `Tweet` in src/types/interfaces.ts). -/
structure Tweet where
  id : String
  text : String
  timestamp : String
  author : String
  likes : Int
  retweets : Int
  replies : Int
  isRetweet : Bool
  originalAuthor : Option String
deriving DecidableEq, Repr

/-! ## Field extraction helpers inside `extractTweets` -/

/-- `extractTweetText`: first selector whose match has nonempty trimmed
`textContent`, returned trimmed. -/
def trimNonempty : Option String → Option String
  | some s => if jsTrim s = "" then none else some (jsTrim s)
  | none => none

/-- `extractTweetText(el)`: the structured text selectors in order, then the
element's own full text, truncated to 280 characters plus `"..."` when it is
longer than 500 characters. -/
def extractTweetText (el : Element) : String :=
  match trimNonempty el.q_tweetText with
  | some t => t
  | none =>
  match trimNonempty el.q_langSpan with
  | some t => t
  | none =>
  match trimNonempty el.q_divLang with
  | some t => t
  | none =>
  match trimNonempty el.q_spanLang with
  | some t => t
  | none =>
  match trimNonempty el.q_dirAuto with
  | some t => t
  | none =>
    let fullText := jsTrim el.textContent
    if 500 < fullText.length then String.mk (fullText.toList.take 280) ++ "..."
    else fullText

/-- Leftmost match, at a fixed start position, of
`\d+[hms]|\d+時間前|\d+分前|\d+時|\d+分` (alternatives tried in order;
each needs a nonempty digit run, so the maximal run decides). -/
def tsMatchAt (l : List Char) : Option (List Char) :=
  let ds := l.takeWhile Char.isDigit
  if ds.isEmpty then none
  else
    match l.drop ds.length with
    | 'h' :: _ => some (ds ++ ['h'])
    | 'm' :: _ => some (ds ++ ['m'])
    | 's' :: _ => some (ds ++ ['s'])
    | '時' :: '間' :: '前' :: _ => some (ds ++ ['時', '間', '前'])
    | '分' :: '前' :: _ => some (ds ++ ['分', '前'])
    | '時' :: _ => some (ds ++ ['時'])
    | '分' :: _ => some (ds ++ ['分'])
    | _ => none

/-- Leftmost match of the relative-time pattern in a text. -/
def firstTsMatch : List Char → Option (List Char)
  | [] => none
  | c :: rest =>
    match tsMatchAt (c :: rest) with
    | some m => some m
    | none => firstTsMatch rest

/-- `extractTimestamp(el)`: `datetime` attribute of a `time` element if truthy,
else its `textContent` (`|| ''`), else the first relative-time match in the
element text, else the current time (passed in as `now`). -/
def extractTimestamp (now : String) (el : Element) : String :=
  match el.q_time with
  | some (dt, txt) =>
    match dt with
    | some d => if d = "" then txt else d
    | none => txt
  | none =>
    match firstTsMatch el.textContent.toList with
    | some m => String.mk m
    | none => now

/-- One author selector attempt: element found, `href` truthy, starts with
`/`, and does not contain `/status/`. -/
def authorTry (q : Option (Option String)) : Option String :=
  match q with
  | some (some href) =>
    if href != "" && href.startsWith "/" &&
       !(containsSeq "/status/".toList href.toList)
    then some (href.drop 1) else none
  | _ => none

/-- A character of the regex class `[a-zA-Z0-9_]`. -/
def isWordChar (c : Char) : Bool := c.isAlphanum || c = '_'

/-- Group 1 of the leftmost match of `@([a-zA-Z0-9_]+)`. -/
def firstHandle : List Char → Option (List Char)
  | [] => none
  | c :: rest =>
    if c = '@' then
      let ds := rest.takeWhile isWordChar
      if ds.isEmpty then firstHandle rest else some ds
    else firstHandle rest

/-- `extractAuthor(el)`: the four author selectors in order, then the
`@handle` regex on the element text, then the positional placeholder. -/
def extractAuthor (index : Nat) (el : Element) : String :=
  match authorTry el.a_userName with
  | some a => a
  | none =>
  match authorTry el.a_userNames with
  | some a => a
  | none =>
  match authorTry el.a_hrefLink with
  | some a => a
  | none =>
  match authorTry el.a_hrefRole with
  | some a => a
  | none =>
    match firstHandle el.textContent.toList with
    | some h => String.mk h
    | none => "extracted_user_" ++ toString index

/-- The three engagement kinds of `extractEngagement`. -/
inductive EngKind
  | like
  | retweet
  | reply
deriving DecidableEq

/-- The `[data-testid="..."] span` observations tried per kind, in order. -/
def engCandidates (el : Element) : EngKind → List (Option String)
  | .like => [el.e_like, el.e_favorite]
  | .retweet => [el.e_retweet, el.e_unretweet]
  | .reply => [el.e_reply]

/-- The testId loop of `extractEngagement`: a candidate is used when the span
exists with truthy `textContent` and `parseEngagement` gives a value `> 0`
(so a `NaN` result also falls through); otherwise the shared
first-integer-in-text fallback `fb` applies. -/
def engLoop (fb : Int) : List (Option String) → Int
  | [] => fb
  | none :: rest => engLoop fb rest
  | some t :: rest =>
    if t = "" then engLoop fb rest
    else
      match parseEngagement t with
      | some n => if 0 < n then n else engLoop fb rest
      | none => engLoop fb rest

/-- `extractEngagement(el, type)`. -/
def extractEngagement (el : Element) (k : EngKind) : Int :=
  engLoop (fallbackDigits el.textContent : Nat) (engCandidates el k)

/-! ## `extractTweets` (src/services/twitter.ts lines 207-430) -/

/-- The body of the `tweetElements.forEach` callback for one element: `none`
when the element is skipped — its resolved text is empty or shorter than 5
characters, or (in the source) a per-element error was thrown and caught by
the surrounding `try/catch`; every field computation below is total, so the
catch branch is unreachable in the model and skipping happens exactly on the
length check. -/
def processOne (nowMs : Nat) (now : String) (index : Nat) (el : Element) :
    Option Tweet :=
  let text := extractTweetText el
  if text = "" ∨ text.length < 5 then none
  else some {
    id := "tweet_" ++ toString nowMs ++ "_" ++ toString index
    text := text
    timestamp := extractTimestamp now el
    author := extractAuthor index el
    likes := extractEngagement el .like
    retweets := extractEngagement el .retweet
    replies := extractEngagement el .reply
    isRetweet := el.hasSocialContext
    originalAuthor :=
      match el.socialContextA with
      | some s => if s = "" then none else some s
      | none => none }

/-- The `forEach` over the chosen element list (`index` is the running
position): a skipped element contributes nothing and processing continues
with the next element. -/
def extractLoop (nowMs : Nat) (now : String) : List Element → Nat → List Tweet
  | [], _ => []
  | el :: rest, i =>
    match processOne nowMs now i el with
    | some t => t :: extractLoop nowMs now rest (i + 1)
    | none => extractLoop nowMs now rest (i + 1)

/-- The candidate container selectors, in source order, paired with the
document observation for each. -/
def structuredLists (d : Document) : List (String × List Element) :=
  [("[data-testid=\"tweet\"]", d.selTweet),
   ("article[data-testid=\"tweet\"]", d.selArticleTweet),
   ("[data-testid=\"cellInnerDiv\"] article", d.selCellInner),
   ("article[role=\"article\"]", d.selRoleArticle),
   ("div[data-testid=\"tweet\"]", d.selDivTweet),
   ("[data-testid=\"tweetText\"]", d.selTweetText)]

/-- The selector loop: first selector with at least one match wins. -/
def pickStructured : List (String × List Element) → Option (String × List Element)
  | [] => none
  | (s, els) :: rest => if els.isEmpty then pickStructured rest else some (s, els)

/-- The fallback candidate test applied to every document element:
`text.length > 20 && text.length < 1000 && !el.querySelector('input') &&
!el.querySelector('button') && (text.includes('@') || text.match(/\d+[hms]|時間前|分前|時|分/))`
where `text = el.textContent || ''` (not trimmed). -/
def relTimeHit (s : String) : Bool :=
  (go s.toList) || s.toList.contains '時' || s.toList.contains '分'
where
  /-- `\d+[hms]` matches somewhere iff some digit is immediately followed by
  `h`, `m` or `s`. -/
  go : List Char → Bool
  | d :: x :: rest =>
    (d.isDigit && (x = 'h' || x = 'm' || x = 's')) || go (x :: rest)
  | _ => false

/-- Whether an element is collected into `tweetCandidates` by the fallback
scan. -/
def heuristicOk (el : Element) : Bool :=
  decide (20 < el.textContent.length) &&
  decide (el.textContent.length < 1000) &&
  !el.hasInput && !el.hasButton &&
  (el.textContent.toList.contains '@' || relTimeHit el.textContent)

/-- `extractTweets`, also reporting the `workingSelector` variable (the empty
string when no strategy produced elements and the function returned `[]`). -/
def extractTweetsDetail (d : Document) (nowMs : Nat) (now : String) :
    List Tweet × String :=
  match pickStructured (structuredLists d) with
  | some (sel, els) => (extractLoop nowMs now els 0, sel)
  | none =>
    let tweetCandidates := d.allElements.filter heuristicOk
    if tweetCandidates.isEmpty then ([], "")
    else (extractLoop nowMs now (tweetCandidates.take 10) 0, "フォールバック抽出")

/-- `TwitterService.extractTweets`: the list of extracted tweets for one
rendered page.  `nowMs` models `Date.now()` and `now` models
`new Date().toISOString()` during this evaluate call. -/
def extractTweets (d : Document) (nowMs : Nat) (now : String) : List Tweet :=
  (extractTweetsDetail d nowMs now).1

/-! ## `getUserProfile` (src/services/twitter.ts lines 154-202, identical in
both versions of the service) -/

/-- The page observations used by `getUserProfile`, one field per selector. -/
structure ProfilePage where
  /-- `textContent` of `[data-testid="UserName"] span`. -/
  userNameSpan : Option String := none
  /-- `textContent` of `[data-testid="UserName"] [dir="ltr"]`. -/
  userNameDir : Option String := none
  /-- `textContent` of `[data-testid="UserDescription"]`. -/
  userDesc : Option String := none
  /-- `textContent` of `a[href$="/following"] span`. -/
  followingSpan : Option String := none
  /-- `textContent` of `a[href$="/verified_followers"] span, a[href$="/followers"] span`. -/
  followersSpan : Option String := none
  /-- `[data-testid="icon-verified"]` yields a match. -/
  hasVerifiedIcon : Bool := false
deriving DecidableEq

/-- The local `getTextContent`: `element?.textContent?.trim() || ''`. -/
def pageText : Option String → String
  | some s => jsTrim s
  | none => ""

/-- First maximal run of the regex class `[\d,]` in a text. -/
def firstNumRun : List Char → Option (List Char)
  | [] => none
  | c :: rest =>
    if isNumChar c then some ((c :: rest).takeWhile isNumChar)
    else firstNumRun rest

/-- The local `getNumber`: first `[\d,]+` run, commas stripped, `parseInt`.
`none` models `NaN` (`parseInt('')` when the run was only commas); no match
gives `0`. -/
def getNumber (text : String) : Option Int :=
  match firstNumRun text.toList with
  | some run =>
    let ds := run.filter Char.isDigit
    if ds.isEmpty then none else some (digitsToNat ds : Nat)
  | none => some 0

/-- JS `str.replace('@', '')`: remove the first occurrence only. -/
def removeFirst (c : Char) : List Char → List Char
  | [] => []
  | x :: rest => if x = c then rest else x :: removeFirst c rest

/-- The profile record assembled by `getUserProfile` (`UserProfile` in
src/types/interfaces.ts); the counter fields keep the `Option Int` NaN
modelling of `getNumber`. -/
structure UserProfile where
  username : String
  displayName : String
  bio : String
  followers : Option Int
  following : Option Int
  verified : Bool
  tweets : Int
deriving DecidableEq

/-- `TwitterService.getUserProfile`: the record built inside
`page.evaluate`. -/
def getUserProfile (p : ProfilePage) : UserProfile :=
  { username := String.mk (removeFirst '@' (pageText p.userNameDir).toList)
    displayName := pageText p.userNameSpan
    bio := pageText p.userDesc
    followers :=
      match p.followersSpan with
      | some t => getNumber t
      | none => some 0
    following :=
      match p.followingSpan with
      | some t => getNumber t
      | none => some 0
    verified := p.hasVerifiedIcon
    tweets := 0 }

/-! ## `collectTweetsNaturally` (src/services/twitter.ts lines 95-131)

The per-iteration extraction results are abstracted as a function
`pages : Nat → List Tweet` giving what `extractTweets` returns on scroll
iteration `i`; the human-like delays and scrolls only advance the page state
and do not touch the accumulator. -/

/-- The body of the inner `for (const tweet of pageTweets)` loop:
`if (!tweets.find(t => t.id === tweet.id) && tweets.length < maxTweets)
tweets.push(tweet)`. -/
def pushTweet (maxT : Nat) (acc : List Tweet) (t : Tweet) : List Tweet :=
  if (acc.find? (fun u => u.id == t.id)).isNone && decide (acc.length < maxT)
  then acc ++ [t] else acc

/-- One scroll iteration's accumulation of a page of extraction results. -/
def pushPage (maxT : Nat) (acc : List Tweet) (page : List Tweet) : List Tweet :=
  page.foldl (pushTweet maxT) acc

/-- The scroll loop
`for (let i = 0; i < maxScrolls && tweets.length < maxTweets; i++)`, returning
the accumulated tweets and `scrollCount`; `i` is the loop variable and the
second argument the remaining iteration budget. -/
def collectGo (pages : Nat → List Tweet) (maxT : Nat) :
    Nat → Nat → List Tweet → List Tweet × Nat
  | _, 0, acc => (acc, 0)
  | i, rem + 1, acc =>
    if acc.length < maxT then
      let r := collectGo pages maxT (i + 1) rem (pushPage maxT acc (pages i))
      (r.1, r.2 + 1)
    else (acc, 0)

/-- `collectTweetsNaturally` with target `maxTweets`:
`maxScrolls = Math.ceil(maxTweets / 3)` iterations at most, starting from an
empty accumulator.  Returns the collected tweets and the scroll count. -/
def collectTweetsNaturally (pages : Nat → List Tweet) (maxTweets : Nat) :
    List Tweet × Nat :=
  collectGo pages maxTweets 0 ((maxTweets + 2) / 3) []

/-- First-seen deduplication by id, skipping ids already in `seen`. -/
def newDedup (seen : List String) : List Tweet → List Tweet
  | [] => []
  | t :: rest =>
    if t.id ∈ seen then newDedup seen rest
    else t :: newDedup (t.id :: seen) rest

/-- First-seen deduplication by id of a whole list. -/
def dedupFirst (l : List Tweet) : List Tweet := newDedup [] l

/-! ## `exportTweetsToSheets` (src/services/sheets.ts lines 144-236)

The destination worksheet is modelled as its list of occupied rows
(row `r`, 1-indexed, is entry `r - 1`); the `values.get` probe of range
`A:A` that the code performs immediately before writing returns the occupied
row count, i.e. the length of that list.  `values.update` on an explicit
rectangular range overwrites exactly the targeted rows. -/

/-- One spreadsheet cell as sent in the `values` payload. -/
inductive Cell
  | str (s : String)
  | num (n : Int)
deriving DecidableEq, Repr

/-- One spreadsheet row. -/
abbrev Row := List Cell

/-- The header row written on first write. -/
def tweetHeaders : Row :=
  [.str "タイムスタンプ", .str "ユーザー名", .str "ツイート内容", .str "いいね数",
   .str "リツイート数", .str "返信数", .str "リツイート?", .str "元ユーザー",
   .str "URL", .str "収集日時"]

/-- The `dataRows` conversion of one tweet (columns A through J). -/
def tweetToRow (collectedAt : String) (t : Tweet) : Row :=
  [.str t.timestamp, .str t.author, .str t.text, .num t.likes, .num t.retweets,
   .num t.replies, .str (if t.isRetweet then "はい" else "いいえ"),
   .str (t.originalAuthor.getD ""), .str ("https://x.com/" ++ t.author),
   .str collectedAt]

/-- The observable outcome of one export call: the start row it used, the
`values` payload, the textual A1 range of the `values.update` call, and the
worksheet contents after the write. -/
structure ExportOutcome where
  startRow : Nat
  values : List Row
  range : String
  newSheet : List Row
deriving DecidableEq

/-- Effect of `values.update` on the explicit rectangle starting at row
`startRow` with `values.length` rows: those rows are replaced (the sheet is
padded with empty rows if the start lies past the current end, which the
export code never does). -/
def writeRect (sheet : List Row) (startRow : Nat) (values : List Row) : List Row :=
  sheet.take (startRow - 1) ++ List.replicate (startRow - 1 - sheet.length) ([] : Row)
    ++ values ++ sheet.drop (startRow - 1 + values.length)

/-- `SheetsService.exportTweetsToSheets` on one worksheet: throws on an empty
batch; otherwise re-reads the existing row count, prepends the header iff that
count is 0, and writes the explicit range
`{ws}!A{startRow}:J{startRow + values.length - 1}`. -/
def runExportTweets (sheet : List Row) (tweets : List Tweet)
    (ws collectedAt : String) : Except String ExportOutcome :=
  if tweets.isEmpty then .error "エクスポートするツイートデータがありません。"
  else
    let existingRowCount := sheet.length
    let dataRows := tweets.map (tweetToRow collectedAt)
    let sv :=
      if existingRowCount = 0 then (1, tweetHeaders :: dataRows)
      else (existingRowCount + 1, dataRows)
    .ok { startRow := sv.1
          values := sv.2
          range := ws ++ "!A" ++ toString sv.1 ++ ":J"
                     ++ toString (sv.1 + sv.2.length - 1)
          newSheet := writeRect sheet sv.1 sv.2 }

/-- The flattened concatenation of the first `k` per-iteration extraction
results, in scroll order. -/
def pagesPrefix (pages : Nat → List Tweet) (k : Nat) : List Tweet :=
  ((List.range k).map pages).flatten

/-- Modelled from the spec: the candidate test the claim describes for the
heuristic fallback — trimmed text length in `[20, 1000)`, no nested input or
button elements, and an `@handle` token or a relative-time token in the text.
(The code itself tests the untrimmed length strictly above 20 and a bare `@`
character; see `heuristicOk`.) -/
def claimedCandidate (el : Element) : Bool :=
  decide (20 ≤ (jsTrim el.textContent).length) &&
  decide ((jsTrim el.textContent).length < 1000) &&
  !el.hasInput && !el.hasButton &&
  ((firstHandle el.textContent.toList).isSome || relTimeHit el.textContent)

/-! ## Concrete objects used by witnesses and counterexamples -/

/-- A tweet element carrying a normal structured text match. -/
def exElement : Element := { textContent := "", q_tweetText := some "hello world" }

/-- A page whose primary container selector matches `exElement`. -/
def exDocument : Document := { selTweet := [exElement] }

/-- The tweet `extractTweets` produces from `exDocument`. -/
def exTweet : Tweet :=
  { id := "tweet_7_0", text := "hello world", timestamp := "NOW",
    author := "extracted_user_0", likes := 0, retweets := 0, replies := 0,
    isRetweet := false, originalAuthor := none }

/-- An element whose untrimmed text has exactly 20 characters and contains the
handle token `@a`; the spec's `[20, 1000)` bound admits it, the code's
`length > 20` test does not. -/
def el20 : Element := { textContent := "aaaaaaaaaaaaaaaaa @a" }

/-- A page with no structured container match whose only element is `el20`. -/
def doc20 : Document := { allElements := [el20] }

/-- An element whose structured text selector resolves to 600 characters of
raw text. -/
def el600 : Element :=
  { textContent := "", q_tweetText := some (String.mk (List.replicate 600 'a')) }

/-- A page whose primary container selector matches `el600`. -/
def doc600 : Document := { selTweet := [el600] }

/-- An element with no structured text match whose own full text is 600
characters, exercising the truncating fallback. -/
def el600f : Element := { textContent := String.mk (List.replicate 600 'b') }

/-- A bare tweet with a given id, for exercising the collection loop. -/
def mkT (s : String) : Tweet :=
  { id := s, text := "", timestamp := "", author := "", likes := 0,
    retweets := 0, replies := 0, isRetweet := false, originalAuthor := none }

/-- Per-iteration extraction results: the first scroll already yields six
distinct ids (plus one duplicate), later scrolls nothing. -/
def cpages : Nat → List Tweet := fun i =>
  if i = 0 then
    [mkT "a", mkT "b", mkT "c", mkT "a", mkT "d", mkT "e", mkT "f"]
  else []

/-- Three records for a first export batch. -/
def batchA : List Tweet := [mkT "a1", mkT "a2", mkT "a3"]

/-- Two records for a second export batch. -/
def batchB : List Tweet := [mkT "b1", mkT "b2"]

/-! ## Helper lemmas -/

theorem firstDigitRun_eq_none (l : List Char) (h : ∀ c ∈ l, c.isDigit = false) :
    firstDigitRun l = none := by
  induction l with
  | nil => rfl
  | cons c rest ih =>
    simp only [firstDigitRun, h c (List.mem_cons_self c rest)]
    simp only [Bool.false_eq_true, if_false]
    exact ih fun x hx => h x (List.mem_cons_of_mem c hx)

theorem parseEngagement_nonneg (s : String) (n : Int)
    (h : parseEngagement s = some n) : 0 ≤ n := by
  unfold parseEngagement at h
  split at h
  · simp only [Option.some.injEq] at h
    omega
  · split at h
    · simp only [Option.some.injEq] at h
      subst h
      exact Int.natCast_nonneg _
    · simp only [] at h
      split at h
      · exact absurd h (by simp)
      · simp only [Option.some.injEq] at h
        subst h
        exact Int.natCast_nonneg _

theorem engLoop_nonneg (fb : Int) (hfb : 0 ≤ fb) :
    ∀ l : List (Option String), 0 ≤ engLoop fb l := by
  intro l
  induction l with
  | nil => exact hfb
  | cons o rest ih =>
    cases o with
    | none => exact ih
    | some t =>
      simp only [engLoop]
      split
      · exact ih
      · split
        · split
          · next n hn h0 => omega
          · exact ih
        · exact ih

theorem extractEngagement_nonneg (el : Element) (k : EngKind) :
    0 ≤ extractEngagement el k :=
  engLoop_nonneg _ (Int.natCast_nonneg _) _

theorem processOne_fields (nowMs : Nat) (now : String) (i : Nat) (el : Element)
    (t : Tweet) (h : processOne nowMs now i el = some t) :
    t.text = extractTweetText el ∧ ¬ extractTweetText el = "" ∧
    5 ≤ (extractTweetText el).length ∧
    t.likes = extractEngagement el .like ∧
    t.retweets = extractEngagement el .retweet ∧
    t.replies = extractEngagement el .reply := by
  simp only [processOne] at h
  split at h
  · exact absurd h (by simp)
  · next hc =>
    push_neg at hc
    cases h
    exact ⟨rfl, hc.1, hc.2, rfl, rfl, rfl⟩

theorem extractLoop_mem (nowMs : Nat) (now : String) :
    ∀ (els : List Element) (i : Nat) (t : Tweet),
      t ∈ extractLoop nowMs now els i →
      ∃ (j : Nat) (el : Element), processOne nowMs now j el = some t := by
  intro els
  induction els with
  | nil => intro i t h; simp [extractLoop] at h
  | cons el rest ih =>
    intro i t h
    simp only [extractLoop] at h
    split at h
    · next t0 heq =>
      rcases List.mem_cons.mp h with rfl | hmem
      · exact ⟨i, el, heq⟩
      · exact ih (i + 1) t hmem
    · exact ih (i + 1) t h

theorem extractTweets_mem (d : Document) (nowMs : Nat) (now : String) (t : Tweet)
    (h : t ∈ extractTweets d nowMs now) :
    ∃ (j : Nat) (el : Element), processOne nowMs now j el = some t := by
  rcases hp : pickStructured (structuredLists d) with _ | ⟨sel, els⟩
  · by_cases hf : (d.allElements.filter heuristicOk).isEmpty
    · simp [extractTweets, extractTweetsDetail, hp, hf] at h
    · simp only [extractTweets, extractTweetsDetail, hp, hf, Bool.false_eq_true,
        if_false] at h
      exact extractLoop_mem nowMs now _ 0 t h
  · simp only [extractTweets, extractTweetsDetail, hp] at h
    exact extractLoop_mem nowMs now els 0 t h

/-! ## C10 -/

/-- C10: `getUserProfile` always returns a post-count field (`tweets`) equal
to 0, regardless of the page content — the field is the hardcoded constant
`tweets: 0` in the record the page-evaluate callback builds, never extracted
from the rendered page. -/
theorem c10_profile_tweets_hardcoded (p : ProfilePage) :
    (getUserProfile p).tweets = 0 := rfl

/-! ## C3 -/

/-- C3 counterexample: `parseCount("7 replies") == 7` does hold, but not via
the fallback first-run-of-digits extraction the claim asserts: the character
strip leaves the cleaned text `"7"`, the structured pattern matches it, and
the fallback branch is not taken. -/
theorem c3_counterexample :
    parseEngagementUsedFallback "7 replies" = false ∧
    parseEngagement "7 replies" = some 7 := by decide

/-- C3 (amended): the listed input/output pairs hold
(`"1,234"` ↦ 1234, `"12.3K"` ↦ 12300, `"2M"` ↦ 2000000, `""` ↦ 0,
`"abc"` ↦ 0, `"7 replies"` ↦ 7); the `"7 replies"` case is resolved by the
structured pattern (the digit survives the character strip), not by the
fallback, which applies only when the cleaned text has no digit and no comma;
K/M/B suffixes are recognized case-insensitively, the result is floored to an
integer, and input containing neither a digit nor a comma yields 0. -/
theorem c3_amended_count_parsing :
    (∀ s : String, (∀ c ∈ s.toList, isNumChar c = false) →
      parseEngagement s = some 0) ∧
    parseEngagement "1,234" = some 1234 ∧
    parseEngagement "12.3K" = some 12300 ∧
    parseEngagement "2M" = some 2000000 ∧
    parseEngagement "" = some 0 ∧
    parseEngagement "abc" = some 0 ∧
    parseEngagement "7 replies" = some 7 ∧
    parseEngagementUsedFallback "7 replies" = false ∧
    parseEngagement "12.3k" = some 12300 ∧
    parseEngagement "2m" = some 2000000 ∧
    parseEngagement "2b" = some 2000000000 ∧
    parseEngagement "2B" = some 2000000000 ∧
    parseEngagement "9.99" = some 9 := by
  refine ⟨?_, by decide, by decide, by decide, by decide, by decide, by decide,
    by decide, by decide, by decide, by decide, by decide, by decide⟩
  intro s h
  by_cases hs : s = ""
  · simp [parseEngagement, hs]
  · have hclean : List.dropWhile (fun c => !(isNumChar c)) (engClean s) = [] := by
      apply List.dropWhile_eq_nil_iff.mpr
      intro x hx
      have hxs : x ∈ s.toList := (List.mem_filter.mp hx).1
      simp [h x hxs]
    have hmatch : engMatch (engClean s) = none := by
      simp only [engMatch, hclean]
    have hfb : fallbackDigits s = 0 := by
      have hnone : firstDigitRun s.data = none := by
        apply firstDigitRun_eq_none
        intro c hc
        have := h c hc
        simp only [isNumChar, Bool.or_eq_false_iff] at this
        exact this.1
      simp [fallbackDigits, hnone]
    simp [parseEngagement, hs, hmatch, hfb]

/-- Witness for the universally quantified conjunct of C3's amended theorem,
at the digit-free comma-free input `"xyz"`. -/
theorem c3_amended_count_parsing_witness :
    (∀ c ∈ "xyz".toList, isNumChar c = false) ∧ parseEngagement "xyz" = some 0 :=
  ⟨by decide, c3_amended_count_parsing.1 "xyz" (by decide)⟩

/-! ## C9 -/

/-- C9 counterexample: on the input `","` (a string containing only commas)
the structured pattern matches the comma run, comma removal leaves
`parseFloat('')`, and the result is `NaN` (modelled as `none`) — not a
well-defined non-negative integer. -/
theorem c9_counterexample_nan : parseEngagement "," = none := by decide

/-- C9 (amended): `parseEngagement` returns either `NaN` (possible, e.g. for
`","`) or a non-negative integer; `extractEngagement` discards `NaN` and
non-positive candidate results and its fallback is a first-digit-run parse,
so it always returns a non-negative integer, and hence the `likes`,
`retweets` and `replies` fields of every extracted Post are non-negative
integers. -/
theorem c9_amended_nonneg :
    (∀ s : String, parseEngagement s = none ∨
      ∃ n : Int, parseEngagement s = some n ∧ 0 ≤ n) ∧
    (∀ (el : Element) (k : EngKind), 0 ≤ extractEngagement el k) ∧
    (∀ (d : Document) (nowMs : Nat) (now : String) (t : Tweet),
      t ∈ extractTweets d nowMs now →
      0 ≤ t.likes ∧ 0 ≤ t.retweets ∧ 0 ≤ t.replies) := by
  refine ⟨?_, extractEngagement_nonneg, ?_⟩
  · intro s
    cases h : parseEngagement s with
    | none => exact Or.inl rfl
    | some n => exact Or.inr ⟨n, rfl, parseEngagement_nonneg s n h⟩
  · intro d nowMs now t h
    obtain ⟨j, el, hj⟩ := extractTweets_mem d nowMs now t h
    obtain ⟨-, -, -, hl, hr, hp⟩ := processOne_fields nowMs now j el t hj
    rw [hl, hr, hp]
    exact ⟨extractEngagement_nonneg el .like, extractEngagement_nonneg el .retweet,
      extractEngagement_nonneg el .reply⟩

/-- Witness for C9's amended theorem at the concrete page `exDocument` and
for the membership hypothesis of its third conjunct. -/
theorem c9_amended_nonneg_witness :
    exTweet ∈ extractTweets exDocument 7 "NOW" ∧
    (0 ≤ exTweet.likes ∧ 0 ≤ exTweet.retweets ∧ 0 ≤ exTweet.replies) :=
  ⟨by decide, c9_amended_nonneg.2.2 exDocument 7 "NOW" exTweet (by decide)⟩

/-! ## C4 -/

/-- C4: every Post in the list returned by `extractTweets` has non-empty text
of length at least 5; a candidate element whose resolved text is empty or
shorter than 5 characters is skipped by the length check and never appears in
the output. -/
theorem c4_min_text_length (d : Document) (nowMs : Nat) (now : String)
    (t : Tweet) (h : t ∈ extractTweets d nowMs now) :
    t.text ≠ "" ∧ 5 ≤ t.text.length := by
  obtain ⟨j, el, hj⟩ := extractTweets_mem d nowMs now t h
  obtain ⟨ht, hne, hlen, -, -, -⟩ := processOne_fields nowMs now j el t hj
  rw [ht]
  exact ⟨hne, hlen⟩

/-- Witness for C4 at the concrete page `exDocument`. -/
theorem c4_min_text_length_witness :
    exTweet ∈ extractTweets exDocument 7 "NOW" ∧
    (exTweet.text ≠ "" ∧ 5 ≤ exTweet.text.length) :=
  ⟨by decide, c4_min_text_length exDocument 7 "NOW" exTweet (by decide)⟩

/-! ## C6 -/

set_option maxRecDepth 4000

/-- C6 counterexample: an extracted Post whose raw source text is 600
characters, resolved through the structured text selector
`[data-testid="tweetText"]`, is stored untruncated with length 600 > 283 —
the truncation only applies on the full-element-text fallback path. -/
theorem c6_counterexample :
    el600.q_tweetText = some (String.mk (List.replicate 600 'a')) ∧
    (String.mk (List.replicate 600 'a')).length = 600 ∧
    (extractTweets doc600 0 "x").map (fun t => t.text.length) = [600] := by
  refine ⟨rfl, by decide, by decide⟩

/-- C6 (amended): the 500-character ceiling applies only on the
full-element-text fallback path of `extractTweetText`: when no structured
text selector yields non-empty trimmed text and the element's own trimmed
text exceeds 500 characters, the stored text is the first 280 characters plus
an ellipsis, of length exactly 283 (hence at most 283); text resolved through
a structured selector is stored untruncated. -/
theorem c6_amended_truncation (el : Element)
    (h1 : trimNonempty el.q_tweetText = none)
    (h2 : trimNonempty el.q_langSpan = none)
    (h3 : trimNonempty el.q_divLang = none)
    (h4 : trimNonempty el.q_spanLang = none)
    (h5 : trimNonempty el.q_dirAuto = none)
    (h6 : 500 < (jsTrim el.textContent).length) :
    extractTweetText el =
      String.mk ((jsTrim el.textContent).toList.take 280) ++ "..." ∧
    (extractTweetText el).length = 283 := by
  have he : extractTweetText el =
      String.mk ((jsTrim el.textContent).toList.take 280) ++ "..." := by
    simp only [extractTweetText, h1, h2, h3, h4, h5]
    rw [if_pos h6]
  refine ⟨he, ?_⟩
  rw [he, String.length_append]
  have hlen : ((jsTrim el.textContent).toList.take 280).length = 280 := by
    rw [List.length_take]
    have : (jsTrim el.textContent).toList.length = (jsTrim el.textContent).length := rfl
    omega
  have he2 : (String.mk ((jsTrim el.textContent).toList.take 280)).length
      = ((jsTrim el.textContent).toList.take 280).length := rfl
  have hd : ("..." : String).length = 3 := rfl
  omega

/-- Witness for C6's amended theorem at a concrete 600-character element with
no structured text match. -/
theorem c6_amended_truncation_witness :
    500 < (jsTrim el600f.textContent).length ∧
    (extractTweetText el600f).length = 283 :=
  ⟨by decide, (c6_amended_truncation el600f rfl rfl rfl rfl rfl (by decide)).2⟩

/-! ## C7 -/

/-- C7: extraction never aborts on a single bad candidate element — the
`forEach` body is applied to each element independently, a skipped element
(caught error or failed length check, modelled by `processOne` returning
`none`) only drops its own contribution while all remaining elements are
still processed at their original indices; and when every strategy yields
zero elements the function returns the empty list as a successful result. -/
theorem c7_error_isolation :
    (∀ (d : Document) (nowMs : Nat) (now : String),
      pickStructured (structuredLists d) = none →
      d.allElements.filter heuristicOk = [] →
      extractTweets d nowMs now = []) ∧
    (∀ (nowMs : Nat) (now : String) (els : List Element) (i : Nat),
      extractLoop nowMs now els i =
        (els.enumFrom i).filterMap fun p => processOne nowMs now p.1 p.2) := by
  constructor
  · intro d nowMs now hp hf
    simp [extractTweets, extractTweetsDetail, hp, hf]
  · intro nowMs now els
    induction els with
    | nil => intro i; rfl
    | cons el rest ih =>
      intro i
      simp only [extractLoop, List.enumFrom, List.filterMap_cons]
      cases h : processOne nowMs now i el <;> simp [h, ih (i + 1)]

/-- Witness for C7 at the empty document (zero elements by every strategy). -/
theorem c7_error_isolation_witness :
    pickStructured (structuredLists {}) = none ∧
    ({} : Document).allElements.filter heuristicOk = [] ∧
    extractTweets {} 0 "" = [] :=
  ⟨by decide, rfl, c7_error_isolation.1 {} 0 "" (by decide) rfl⟩

/-! ## C1 and C2: the sheet writer -/

theorem writeRect_append (sheet values : List Row) :
    writeRect sheet (sheet.length + 1) values = sheet ++ values := by
  unfold writeRect
  simp [List.drop_eq_nil_of_le (Nat.le_add_right sheet.length values.length)]

theorem runExportTweets_first (a : Tweet) (A : List Tweet) (ws now : String) :
    runExportTweets [] (a :: A) ws now = .ok
      { startRow := 1,
        values := tweetHeaders :: (a :: A).map (tweetToRow now),
        range := ws ++ "!A" ++ toString 1 ++ ":J"
                   ++ toString (1 + (tweetHeaders :: (a :: A).map (tweetToRow now)).length - 1),
        newSheet := tweetHeaders :: (a :: A).map (tweetToRow now) } := by
  simp [runExportTweets, writeRect]

theorem runExportTweets_append (sheet : List Row) (hs : sheet ≠ []) (b : Tweet)
    (B : List Tweet) (ws now : String) :
    runExportTweets sheet (b :: B) ws now = .ok
      { startRow := sheet.length + 1,
        values := (b :: B).map (tweetToRow now),
        range := ws ++ "!A" ++ toString (sheet.length + 1) ++ ":J"
                   ++ toString (sheet.length + 1 + ((b :: B).map (tweetToRow now)).length - 1),
        newSheet := sheet ++ (b :: B).map (tweetToRow now) } := by
  have h0 : sheet.length ≠ 0 := by simpa [List.length_eq_zero] using hs
  simp [runExportTweets, h0, writeRect_append]

/-- C1: a non-empty export batch is written in one `values.update` call whose
payload is exactly `[header row] ++ record rows` starting at row 1 when the
freshly-read column-A row count is 0, and exactly the record rows starting at
row `existingRowCount + 1` otherwise; the call targets the explicit
rectangular range from the start row to `start row + written rows - 1`,
columns A through J (every written row has exactly 10 cells). -/
theorem c1_export_write_layout (sheet : List Row) (tweets : List Tweet)
    (ws now : String) (h : tweets ≠ []) :
    ∃ o : ExportOutcome, runExportTweets sheet tweets ws now = .ok o ∧
      (sheet.length = 0 → o.startRow = 1 ∧
        o.values = tweetHeaders :: tweets.map (tweetToRow now)) ∧
      (0 < sheet.length → o.startRow = sheet.length + 1 ∧
        o.values = tweets.map (tweetToRow now)) ∧
      o.range = ws ++ "!A" ++ toString o.startRow ++ ":J"
                  ++ toString (o.startRow + o.values.length - 1) ∧
      (∀ r ∈ o.values, r.length = 10) := by
  obtain ⟨a, A, rfl⟩ : ∃ a A, tweets = a :: A := by
    cases tweets with
    | nil => exact absurd rfl h
    | cons a A => exact ⟨a, A, rfl⟩
  have hrow : ∀ r ∈ (a :: A).map (tweetToRow now), r.length = 10 := by
    intro r hr
    obtain ⟨t, -, rfl⟩ := List.mem_map.mp hr
    simp [tweetToRow]
  by_cases h0 : sheet.length = 0
  · obtain rfl : sheet = [] := List.length_eq_zero.mp h0
    refine ⟨_, runExportTweets_first a A ws now, ?_, ?_, rfl, ?_⟩
    · intro; exact ⟨rfl, rfl⟩
    · intro hc; simp at hc
    · intro r hr
      rcases List.mem_cons.mp hr with rfl | hm
      · decide
      · exact hrow r hm
  · have hs : sheet ≠ [] := fun hc => h0 (by simp [hc])
    refine ⟨_, runExportTweets_append sheet hs a A ws now, ?_, ?_, rfl, hrow⟩
    · intro hc; exact absurd hc h0
    · intro; exact ⟨rfl, rfl⟩

/-- Witness for C1 writing a concrete three-record batch to an empty
worksheet. -/
theorem c1_export_write_layout_witness :
    batchA ≠ [] ∧
    ∃ o : ExportOutcome, runExportTweets [] batchA "Tweets" "C" = .ok o ∧
      (([] : List Row).length = 0 → o.startRow = 1 ∧
        o.values = tweetHeaders :: batchA.map (tweetToRow "C")) ∧
      (0 < ([] : List Row).length → o.startRow = ([] : List Row).length + 1 ∧
        o.values = batchA.map (tweetToRow "C")) ∧
      o.range = "Tweets" ++ "!A" ++ toString o.startRow ++ ":J"
                  ++ toString (o.startRow + o.values.length - 1) ∧
      (∀ r ∈ o.values, r.length = 10) :=
  ⟨by decide, c1_export_write_layout [] batchA "Tweets" "C" (by decide)⟩

/-- C2: two sequential export calls on the same worksheet occupy
monotonically increasing, contiguous, non-overlapping row ranges, and the
second call leaves every row written by the first byte-identical: on an empty
worksheet a batch `A` occupies rows 1 (header) through `1 + |A|`, and a batch
`B` written immediately after starts at row `|A| + 2`, occupies exactly the
next `|B|` rows, and the first `1 + |A|` rows are unchanged. -/
theorem c2_sequential_append_frame (A B : List Tweet) (ws n1 n2 : String)
    (hA : A ≠ []) (hB : B ≠ []) :
    ∃ o1 o2 : ExportOutcome,
      runExportTweets [] A ws n1 = .ok o1 ∧
      runExportTweets o1.newSheet B ws n2 = .ok o2 ∧
      o1.startRow = 1 ∧
      o1.newSheet = tweetHeaders :: A.map (tweetToRow n1) ∧
      o1.newSheet.length = 1 + A.length ∧
      o2.startRow = 1 + A.length + 1 ∧
      o2.newSheet = o1.newSheet ++ B.map (tweetToRow n2) ∧
      o2.newSheet.take o1.newSheet.length = o1.newSheet ∧
      o2.newSheet.drop o1.newSheet.length = B.map (tweetToRow n2) ∧
      o1.startRow + o1.values.length = o2.startRow ∧
      o2.newSheet.length = 1 + A.length + B.length := by
  obtain ⟨a, A', rfl⟩ : ∃ a A', A = a :: A' := by
    cases A with
    | nil => exact absurd rfl hA
    | cons a A' => exact ⟨a, A', rfl⟩
  obtain ⟨b, B', rfl⟩ : ∃ b B', B = b :: B' := by
    cases B with
    | nil => exact absurd rfl hB
    | cons b B' => exact ⟨b, B', rfl⟩
  refine ⟨_, _, runExportTweets_first a A' ws n1,
    runExportTweets_append _ (by simp) b B' ws n2, rfl, rfl, ?_, ?_, rfl, ?_, ?_, ?_, ?_⟩
  · simp [Nat.add_comm]
  · simp [Nat.add_comm]
  · exact List.take_left _ _
  · simp
  · simp [Nat.add_comm]
  · simp [Nat.add_comm, Nat.add_assoc, Nat.add_left_comm]

/-- Witness for C2: the concrete 3-record and 2-record batches of the claim —
rows 1 through 4 after the first write, rows 5 and 6 added by the second with
rows 1 through 4 untouched. -/
theorem c2_sequential_append_frame_witness :
    batchA ≠ [] ∧ batchB ≠ [] ∧
    ∃ o1 o2 : ExportOutcome,
      runExportTweets [] batchA "W" "t1" = .ok o1 ∧
      runExportTweets o1.newSheet batchB "W" "t2" = .ok o2 ∧
      o1.startRow = 1 ∧
      o1.newSheet = tweetHeaders :: batchA.map (tweetToRow "t1") ∧
      o1.newSheet.length = 1 + batchA.length ∧
      o2.startRow = 1 + batchA.length + 1 ∧
      o2.newSheet = o1.newSheet ++ batchB.map (tweetToRow "t2") ∧
      o2.newSheet.take o1.newSheet.length = o1.newSheet ∧
      o2.newSheet.drop o1.newSheet.length = batchB.map (tweetToRow "t2") ∧
      o1.startRow + o1.values.length = o2.startRow ∧
      o2.newSheet.length = 1 + batchA.length + batchB.length :=
  ⟨by decide, by decide,
    c2_sequential_append_frame batchA batchB "W" "t1" "t2" (by decide) (by decide)⟩

/-! ## C5 -/

theorem pickStructured_sel (d : Document) (sel : String) (els : List Element)
    (h : pickStructured (structuredLists d) = some (sel, els)) :
    sel ≠ "フォールバック抽出" := by
  simp only [structuredLists, pickStructured] at h
  split_ifs at h <;> simp only [Option.some.injEq, Prod.mk.injEq] at h <;>
    obtain ⟨rfl, -⟩ := h <;> decide

/-- C5 counterexample: an element whose (trimmed and untrimmed) text has
exactly 20 characters and contains the handle token `@a`, in a document with
zero structured container matches — the claim's `[20, 1000)` bound makes it a
post candidate, but the code requires `text.length > 20`, so the code's
candidate set is empty and extraction returns the empty list. -/
theorem c5_counterexample :
    claimedCandidate el20 = true ∧
    el20.textContent.length = 20 ∧
    pickStructured (structuredLists doc20) = none ∧
    doc20.allElements.filter heuristicOk = [] ∧
    extractTweets doc20 0 "" = [] := by decide

/-- C5 (amended): the heuristic fallback runs if and only if every structured
container selector yields zero matches and it reports the fallback marker
exactly when it also finds at least one candidate; when the structured
selectors all fail, the processed candidate set is the first 10 document
elements satisfying the code's test — untrimmed text length strictly greater
than 20 and less than 1000, no nested input or button element, and text
containing a `@` character or a relative-time token; a document with at least
one structured-selector match takes the structured path and never invokes the
heuristic scan. -/
theorem c5_amended_fallback :
    (∀ (d : Document) (nowMs : Nat) (now : String),
      (extractTweetsDetail d nowMs now).2 = "フォールバック抽出" ↔
        (pickStructured (structuredLists d) = none ∧
         d.allElements.filter heuristicOk ≠ [])) ∧
    (∀ (d : Document) (nowMs : Nat) (now : String),
      pickStructured (structuredLists d) = none →
      extractTweets d nowMs now =
        extractLoop nowMs now ((d.allElements.filter heuristicOk).take 10) 0) ∧
    (∀ (d : Document) (nowMs : Nat) (now : String) (sel : String)
       (els : List Element),
      pickStructured (structuredLists d) = some (sel, els) →
      extractTweetsDetail d nowMs now = (extractLoop nowMs now els 0, sel)) ∧
    (∀ el : Element, heuristicOk el = true ↔
      (20 < el.textContent.length ∧ el.textContent.length < 1000 ∧
       el.hasInput = false ∧ el.hasButton = false ∧
       (el.textContent.toList.contains '@' = true ∨
        relTimeHit el.textContent = true))) := by
  refine ⟨?_, ?_, ?_, ?_⟩
  · intro d nowMs now
    rcases hp : pickStructured (structuredLists d) with _ | ⟨sel, els⟩
    · by_cases hf : d.allElements.filter heuristicOk = []
      · simp [extractTweetsDetail, hp, hf]
      · simp [extractTweetsDetail, hp, List.isEmpty_iff, hf]
    · simp [extractTweetsDetail, hp, pickStructured_sel d sel els hp]
  · intro d nowMs now hp
    by_cases hf : d.allElements.filter heuristicOk = []
    · simp [extractTweets, extractTweetsDetail, hp, hf, extractLoop]
    · simp [extractTweets, extractTweetsDetail, hp, List.isEmpty_iff, hf]
  · intro d nowMs now sel els hp
    simp [extractTweetsDetail, hp]
  · intro el
    simp [heuristicOk, Bool.and_eq_true, decide_eq_true_eq, and_assoc,
      Bool.not_eq_true']

/-- Witness for C5's amended theorem at the concrete fallback document
`doc20`. -/
theorem c5_amended_fallback_witness :
    pickStructured (structuredLists doc20) = none ∧
    extractTweets doc20 0 "" =
      extractLoop 0 "" ((doc20.allElements.filter heuristicOk).take 10) 0 :=
  ⟨by decide, c5_amended_fallback.2.1 doc20 0 "" (by decide)⟩

/-! ## C8: collection-loop lemmas -/

theorem findId_none (acc : List Tweet) (t : Tweet) :
    (acc.find? (fun u => u.id == t.id)).isNone = true ↔
      ¬ t.id ∈ acc.map Tweet.id := by
  rw [Option.isNone_iff_eq_none, List.find?_eq_none]
  constructor
  · intro h hm
    obtain ⟨u, hu, he⟩ := List.mem_map.mp hm
    exact h u hu (by simp [he])
  · intro h u hu
    simp only [beq_iff_eq]
    intro he
    exact h (List.mem_map.mpr ⟨u, hu, he⟩)

theorem pushTweet_push (maxT : Nat) (acc : List Tweet) (t : Tweet)
    (h1 : ¬ t.id ∈ acc.map Tweet.id) (h2 : acc.length < maxT) :
    pushTweet maxT acc t = acc ++ [t] := by
  unfold pushTweet
  rw [if_pos]
  rw [Bool.and_eq_true]
  exact ⟨(findId_none acc t).mpr h1, decide_eq_true h2⟩

theorem pushTweet_skip_mem (maxT : Nat) (acc : List Tweet) (t : Tweet)
    (h1 : t.id ∈ acc.map Tweet.id) : pushTweet maxT acc t = acc := by
  unfold pushTweet
  rw [if_neg]
  rw [Bool.and_eq_true]
  intro hc
  exact (findId_none acc t).mp hc.1 h1

theorem pushTweet_skip_full (maxT : Nat) (acc : List Tweet) (t : Tweet)
    (h2 : ¬ acc.length < maxT) : pushTweet maxT acc t = acc := by
  unfold pushTweet
  rw [if_neg]
  rw [Bool.and_eq_true]
  intro hc
  exact h2 (of_decide_eq_true hc.2)

theorem pushPage_full (maxT : Nat) (page : List Tweet) :
    ∀ acc : List Tweet, ¬ acc.length < maxT → pushPage maxT acc page = acc := by
  induction page with
  | nil => intro acc _; rfl
  | cons t rest ih =>
    intro acc h
    have : pushPage maxT acc (t :: rest) = pushPage maxT (pushTweet maxT acc t) rest := rfl
    rw [this, pushTweet_skip_full maxT acc t h]
    exact ih acc h

theorem newDedup_congr (s1 s2 : List String) (h : ∀ x, x ∈ s1 ↔ x ∈ s2) :
    ∀ l : List Tweet, newDedup s1 l = newDedup s2 l := by
  intro l
  induction l generalizing s1 s2 with
  | nil => rfl
  | cons t rest ih =>
    simp only [newDedup]
    by_cases hm : t.id ∈ s1
    · rw [if_pos hm, if_pos ((h t.id).mp hm)]
      exact ih s1 s2 h
    · rw [if_neg hm, if_neg (fun hc => hm ((h t.id).mpr hc))]
      refine congrArg (t :: ·) (ih (t.id :: s1) (t.id :: s2) ?_)
      intro x
      simp [h x]

theorem pushPage_eq (maxT : Nat) :
    ∀ (page acc : List Tweet),
      pushPage maxT acc page =
        acc ++ (newDedup (acc.map Tweet.id) page).take (maxT - acc.length) := by
  intro page
  induction page with
  | nil => intro acc; simp [pushPage, newDedup]
  | cons t rest ih =>
    intro acc
    have hcons : pushPage maxT acc (t :: rest) = pushPage maxT (pushTweet maxT acc t) rest := rfl
    by_cases hmem : t.id ∈ acc.map Tweet.id
    · rw [hcons, pushTweet_skip_mem maxT acc t hmem, ih acc]
      simp [newDedup, hmem]
    · by_cases hlen : acc.length < maxT
      · rw [hcons, pushTweet_push maxT acc t hmem hlen, ih (acc ++ [t])]
        have hmap : (acc ++ [t]).map Tweet.id = acc.map Tweet.id ++ [t.id] := by simp
        rw [hmap,
          newDedup_congr (acc.map Tweet.id ++ [t.id]) (t.id :: acc.map Tweet.id)
            (by intro x; simp [or_comm]) rest]
        have hterm : newDedup (acc.map Tweet.id) (t :: rest)
            = t :: newDedup (t.id :: acc.map Tweet.id) rest := by
          simp [newDedup, hmem]
        have hsub : maxT - acc.length = (maxT - (acc.length + 1)) + 1 := by omega
        rw [hterm, hsub, List.take_succ_cons]
        simp
      · rw [hcons, pushTweet_skip_full maxT acc t hlen, ih acc]
        have h0 : maxT - acc.length = 0 := by omega
        simp [newDedup, hmem, h0]

theorem foldl_pushPage_full (maxT : Nat) (L : List (List Tweet)) :
    ∀ acc : List Tweet, ¬ acc.length < maxT →
      List.foldl (pushPage maxT) acc L = acc := by
  induction L with
  | nil => intro acc _; rfl
  | cons p rest ih =>
    intro acc h
    simp only [List.foldl_cons, pushPage_full maxT p acc h]
    exact ih acc h

theorem foldl_pushPage_flatten (maxT : Nat) (L : List (List Tweet)) (acc : List Tweet) :
    List.foldl (pushPage maxT) acc L = pushPage maxT acc L.flatten := by
  have : pushPage maxT acc L.flatten = List.foldl (pushTweet maxT) acc L.flatten := rfl
  rw [this, List.foldl_flatten]
  rfl

theorem foldl_pushPage_range_succ (maxT : Nat) (pages : Nat → List Tweet)
    (i j : Nat) (acc : List Tweet) :
    List.foldl (pushPage maxT) acc ((List.range (j + 1)).map (fun k => pages (i + k))) =
      List.foldl (pushPage maxT) (pushPage maxT acc (pages i))
        ((List.range j).map (fun k => pages (i + 1 + k))) := by
  rw [List.range_succ_eq_map]
  simp only [List.map_cons, List.map_map, List.foldl_cons, Nat.add_zero, Function.comp]
  congr 1
  apply List.map_congr_left
  intro k hk
  simp only [Function.comp_apply]
  have h : i + Nat.succ k = i + 1 + k := by omega
  rw [h]

theorem collectGo_spec (pages : Nat → List Tweet) (maxT : Nat) :
    ∀ (rem i : Nat) (acc : List Tweet),
      (collectGo pages maxT i rem acc).1 =
        List.foldl (pushPage maxT) acc ((List.range rem).map (fun k => pages (i + k))) ∧
      (collectGo pages maxT i rem acc).2 ≤ rem ∧
      ((collectGo pages maxT i rem acc).2 < rem →
        maxT ≤ (collectGo pages maxT i rem acc).1.length) ∧
      (∀ j, j < (collectGo pages maxT i rem acc).2 →
        (List.foldl (pushPage maxT) acc
          ((List.range j).map (fun k => pages (i + k)))).length < maxT) := by
  intro rem
  induction rem with
  | zero =>
    intro i acc
    refine ⟨by simp [collectGo], Nat.le_refl 0, ?_, ?_⟩
    · intro hcl
      exact absurd hcl (Nat.not_lt_zero _)
    · intro j hj
      exact absurd hj (Nat.not_lt_zero _)
  | succ rem ih =>
    intro i acc
    by_cases hlen : acc.length < maxT
    · have hred : collectGo pages maxT i (rem + 1) acc =
          ((collectGo pages maxT (i + 1) rem (pushPage maxT acc (pages i))).1,
           (collectGo pages maxT (i + 1) rem (pushPage maxT acc (pages i))).2 + 1) := by
        simp [collectGo, hlen]
      obtain ⟨ih1, ih2, ih3, ih4⟩ := ih (i + 1) (pushPage maxT acc (pages i))
      rw [hred]
      refine ⟨?_, Nat.succ_le_succ ih2, ?_, ?_⟩
      · rw [foldl_pushPage_range_succ]
        exact ih1
      · intro hcl
        exact ih3 (Nat.lt_of_succ_lt_succ hcl)
      · intro j hj
        cases j with
        | zero => simpa using hlen
        | succ j' =>
          rw [foldl_pushPage_range_succ]
          exact ih4 j' (Nat.lt_of_succ_lt_succ hj)
    · have hred : collectGo pages maxT i (rem + 1) acc = (acc, 0) := by
        simp [collectGo, hlen]
      rw [hred]
      refine ⟨(foldl_pushPage_full maxT _ acc hlen).symm, Nat.zero_le _, ?_, ?_⟩
      · intro _
        exact Nat.le_of_not_lt hlen
      · intro j hj
        exact absurd hj (Nat.not_lt_zero _)

theorem newDedup_ids (l : List Tweet) :
    ∀ seen : List String,
      ((newDedup seen l).map Tweet.id).Nodup ∧
      ∀ x ∈ (newDedup seen l).map Tweet.id, ¬ x ∈ seen := by
  induction l with
  | nil => intro seen; simp [newDedup]
  | cons t rest ih =>
    intro seen
    by_cases hm : t.id ∈ seen
    · simp only [newDedup, if_pos hm]
      exact ih seen
    · simp only [newDedup, if_neg hm, List.map_cons]
      obtain ⟨ihn, ihs⟩ := ih (t.id :: seen)
      refine ⟨List.nodup_cons.mpr ⟨fun hc => ?_, ihn⟩, ?_⟩
      · exact ihs t.id hc (List.mem_cons_self _ _)
      · intro x hx
        rcases List.mem_cons.mp hx with rfl | hx'
        · exact hm
        · intro hseen
          exact ihs x hx' (List.mem_cons_of_mem _ hseen)

/-- C8: for every sequence of per-iteration extraction results, the
collection loop returns exactly the first-seen-order deduplication (by
synthetic id, earlier instance retained) of the concatenated pages, truncated
to the target count; the result never exceeds the target count and its ids
are pairwise distinct; the scroll count never exceeds the budget
`ceil(targetCount / 3)`, the loop stops early only with the target count
reached, and every iteration it does run starts below the target count (so it
terminates as soon as the target is collected). -/
theorem c8_collection_loop (pages : Nat → List Tweet) (n : Nat) :
    (collectTweetsNaturally pages n).1 =
      (dedupFirst (pagesPrefix pages ((n + 2) / 3))).take n ∧
    (collectTweetsNaturally pages n).1.length ≤ n ∧
    ((collectTweetsNaturally pages n).1.map Tweet.id).Nodup ∧
    (collectTweetsNaturally pages n).2 ≤ (n + 2) / 3 ∧
    ((collectTweetsNaturally pages n).2 < (n + 2) / 3 →
      (collectTweetsNaturally pages n).1.length = n) ∧
    (∀ j, j < (collectTweetsNaturally pages n).2 →
      (List.foldl (pushPage n) [] ((List.range j).map pages)).length < n) := by
  obtain ⟨h1, h2, h3, h4⟩ := collectGo_spec pages n ((n + 2) / 3) 0 []
  have hmap0 : ∀ j : Nat,
      (List.range j).map (fun k => pages (0 + k)) = (List.range j).map pages := by
    intro j
    apply List.map_congr_left
    intro k _
    simp
  have hres : (collectTweetsNaturally pages n).1 =
      (dedupFirst (pagesPrefix pages ((n + 2) / 3))).take n := by
    show (collectGo pages n 0 ((n + 2) / 3) []).1 = _
    rw [h1, hmap0, foldl_pushPage_flatten, pushPage_eq]
    simp [dedupFirst, pagesPrefix]
  have hlen : (collectTweetsNaturally pages n).1.length ≤ n := by
    rw [hres, List.length_take]
    omega
  refine ⟨hres, hlen, ?_, h2, ?_, ?_⟩
  · rw [hres, List.map_take]
    exact ((newDedup_ids _ []).1).sublist (List.take_sublist _ _)
  · intro hc
    have hge : n ≤ (collectTweetsNaturally pages n).1.length := h3 hc
    omega
  · intro j hj
    have := h4 j hj
    rwa [hmap0 j] at this

/-- Witness for C8 at a concrete page sequence whose first scroll already
yields six distinct ids, for the target count 6 (budget 2): the loop stops
after one scroll with exactly 6 tweets, matching the deduplicate-then-take
characterization. -/
theorem c8_collection_loop_witness :
    (collectTweetsNaturally cpages 6).2 < (6 + 2) / 3 ∧
    (collectTweetsNaturally cpages 6).1.length = 6 ∧
    (collectTweetsNaturally cpages 6).1 =
      (dedupFirst (pagesPrefix cpages ((6 + 2) / 3))).take 6 :=
  ⟨by decide, (c8_collection_loop cpages 6).2.2.2.2.1 (by decide),
    (c8_collection_loop cpages 6).1⟩
